import Mathlib

/-!
Shallow embedding of the proma backend's authorization core: the membership
resolver (models/board.js, models/project.js, models/session.js,
models/user.js), the authorization middleware (middleware/auth.js), and the
partial-update query builder (helpers/sql.js).

The relational store is modelled as lists of rows; a SQL
`SELECT ... WHERE id=$1 ... rows[0]` becomes `List.find?`, an
`EXISTS`-style membership query becomes `List.any`, and a join with
`SELECT DISTINCT` over rows of a uniquely-keyed table becomes `List.filter`.
JavaScript `throw` propagated through express `next(err)` is modelled with
`Except Err`; a JavaScript `TypeError` from dereferencing `undefined` is its
own error class, distinct from the application's NotFound / Unauthorized /
BadRequest taxonomy (expressError.js).  Route parameters arrive as strings;
where the source hands them straight to the database (which coerces numeric
text) we model the numeric value, and where the source compares them with
JavaScript strict equality we keep the string and model `===` on mixed
number/string operands faithfully (it is false).
-/

namespace Proma

/-- Error taxonomy: UnauthorizedError, NotFoundError, BadRequestError from
expressError.js, plus the JavaScript TypeError that escapes when code
dereferences `undefined`, and a database-driver error for unparsable ids. -/
inductive Err where
  | unauthorized
  | notFound (msg : String)
  | badRequest (msg : String)
  | typeError (msg : String)
  | pgError (msg : String)
  deriving Repr, DecidableEq

/-- Decidable equality of fallible results, so concrete runs of the
embedded operations can be settled by evaluation. -/
instance {ε α : Type} [DecidableEq ε] [DecidableEq α] : DecidableEq (Except ε α) := fun a b =>
  match a, b with
  | Except.error x, Except.error y =>
      if h : x = y then Decidable.isTrue (congrArg Except.error h)
      else Decidable.isFalse (fun hc => h (Except.error.inj hc))
  | Except.ok x, Except.ok y =>
      if h : x = y then Decidable.isTrue (congrArg Except.ok h)
      else Decidable.isFalse (fun hc => h (Except.ok.inj hc))
  | Except.error _, Except.ok _ => Decidable.isFalse (fun hc => Except.noConfusion hc)
  | Except.ok _, Except.error _ => Decidable.isFalse (fun hc => Except.noConfusion hc)

/-- Verified JWT payload attached as res.locals.user (helpers/tokens.js
signs exactly these fields; the id is the numeric database id). -/
structure Actor where
  id : Nat
  email : String
  isPm : Bool
  deriving Repr, DecidableEq

/-- Row of the users table (password hash omitted: no modelled operation
reads it). -/
structure UserRow where
  id : Nat
  email : String
  firstName : String
  lastName : String
  isPm : Bool
  deriving Repr, DecidableEq

/-- Row of the boards table. -/
structure BoardRow where
  id : Nat
  title : String
  deriving Repr, DecidableEq

/-- Row of the projects table. -/
structure ProjectRow where
  id : Nat
  name : String
  priority : Nat
  stage : String
  boardId : Nat
  deriving Repr, DecidableEq

/-- Row of the sessions table (timestamps kept as opaque strings; the
end timestamp is nullable). -/
structure SessionRow where
  id : Nat
  projectId : Nat
  userId : Nat
  startDatetime : String
  endDatetime : Option String
  categoryId : Nat
  comment : String
  deriving Repr, DecidableEq

/-- The relational store (proma-schema.sql).  boards_users rows are
(user_id, board_id) pairs and projects_users rows are
(user_id, project_id) pairs; both tables have a composite primary key,
so a well-formed store holds no duplicate pair. -/
structure Store where
  users : List UserRow
  boards : List BoardRow
  projects : List ProjectRow
  sessions : List SessionRow
  boardsUsers : List (Nat × Nat)
  projectsUsers : List (Nat × Nat)
  deriving Repr, DecidableEq

/-- Decimal digit value of a character, when it is one. -/
def decDigit? (c : Char) : Option Nat :=
  if 48 ≤ c.toNat && c.toNat ≤ 57 then some (c.toNat - 48) else none

/-- Accumulating decimal parse of a character list; none on the first
non-digit. -/
def parseNatCore : List Char → Nat → Option Nat
  | [], acc => some acc
  | c :: cs, acc =>
      match decDigit? c with
      | some d => parseNatCore cs (acc * 10 + d)
      | none => none

/-- Parse of a plain decimal string; none when empty or holding any
non-digit character. -/
def parseNat (s : String) : Option Nat :=
  match s.data with
  | [] => none
  | cs => parseNatCore cs 0

/-- Postgres coercion of a text route parameter bound to an integer
column: numeric text parses, anything else makes the query itself fail. -/
def pgId (s : String) : Except Err Nat :=
  match parseNat s with
  | some n => Except.ok n
  | none => Except.error (Err.pgError "invalid input syntax for type integer")

/-- JavaScript value carried by an id comparison: route params are strings,
JWT ids and database ids are numbers. -/
inductive JsVal where
  | num (n : Nat)
  | str (s : String)
  deriving Repr, DecidableEq

/-- JavaScript strict equality (===): equal only within one type; a number
never strictly equals a string. -/
def jsStrictEq : JsVal → JsVal → Bool
  | JsVal.num a, JsVal.num b => a == b
  | JsVal.str a, JsVal.str b => a == b
  | _, _ => false

/-- Reading a property of res.locals.user: a TypeError escapes when no
actor is attached (the middleware that dereference the actor without a
falsiness check first). -/
def getUser : Option Actor → Except Err Actor
  | none => Except.error (Err.typeError "Cannot read properties of undefined")
  | some u => Except.ok u

/-- Board.isUserOnBoard (models/board.js): checks the board exists (else
NotFoundError "no board found"), then whether a boards_users row matches. -/
def Board.isUserOnBoard (st : Store) (userId boardId : Nat) : Except Err Bool :=
  match st.boards.find? (fun b => b.id == boardId) with
  | none => Except.error (Err.notFound "no board found")
  | some _ =>
      Except.ok (st.boardsUsers.any (fun r => r.1 == userId && r.2 == boardId))

/-- Board.removeUserFromBoard (models/board.js): DELETE of the matching
boards_users rows; NotFoundError "no board-user found" when the DELETE
returned no row.  No user or board existence check is made. -/
def Board.removeUserFromBoard (st : Store) (userId boardId : Nat) : Except Err Store :=
  if st.boardsUsers.any (fun r => r.1 == userId && r.2 == boardId) then
    Except.ok { st with
      boardsUsers := st.boardsUsers.filter (fun r => !(r.1 == userId && r.2 == boardId)) }
  else
    Except.error (Err.notFound "no board-user found")

/-- Project.getById (models/project.js): row or NotFoundError
"no project found". -/
def Project.getById (st : Store) (projectId : Nat) : Except Err ProjectRow :=
  match st.projects.find? (fun p => p.id == projectId) with
  | none => Except.error (Err.notFound "no project found")
  | some p => Except.ok p

/-- Project.isUserOnProject (models/project.js): a bare SELECT on
projects_users; no project or user existence check, so it never fails,
returning false for a nonexistent project or user. -/
def Project.isUserOnProject (st : Store) (userId projectId : Nat) : Except Err Bool :=
  Except.ok (st.projectsUsers.any (fun r => r.1 == userId && r.2 == projectId))

/-- Session.getById (models/session.js): returns the row or `undefined`;
unlike every sibling lookup it has no NotFound check, so its result is an
Option and no fault is raised here. -/
def Session.getById (st : Store) (sessionId : Nat) : Option SessionRow :=
  st.sessions.find? (fun s => s.id == sessionId)

/-- Session.getBoardId (models/session.js): checks the session exists
(else NotFoundError "no session found"), then joins to the project row;
if the join yields no row the code reads .boardId of `undefined`
(a TypeError, prevented in practice by the foreign key). -/
def Session.getBoardId (st : Store) (sessionId : Nat) : Except Err Nat :=
  match st.sessions.find? (fun s => s.id == sessionId) with
  | none => Except.error (Err.notFound "no session found")
  | some s =>
      match st.projects.find? (fun p => p.id == s.projectId) with
      | none => Except.error (Err.typeError "Cannot read properties of undefined")
      | some p => Except.ok p.boardId

/-- User.getAllFromSharedBoards (models/user.js): checks the user exists
(else NotFoundError "No user found"), then SELECT DISTINCT over users
joined through boards_users twice: every user who shares some board with
the given user.  Users have unique ids, so the DISTINCT join is the
filter of the users table. -/
def User.getAllFromSharedBoards (st : Store) (userId : Nat) : Except Err (List UserRow) :=
  match st.users.find? (fun u => u.id == userId) with
  | none => Except.error (Err.notFound "No user found")
  | some _ =>
      Except.ok (st.users.filter (fun v =>
        st.boardsUsers.any (fun r1 => r1.1 == v.id &&
          st.boardsUsers.any (fun r2 => r2.2 == r1.2 && r2.1 == userId))))

/-- ensureLoggedIn (middleware/auth.js): UnauthorizedError when no actor
is attached. -/
def ensureLoggedIn (actor : Option Actor) : Except Err Unit :=
  match actor with
  | none => Except.error Err.unauthorized
  | some _ => Except.ok ()

/-- ensurePm (middleware/auth.js): UnauthorizedError unless an actor is
attached and its isPm flag is true.  No board membership is consulted. -/
def ensurePm (actor : Option Actor) : Except Err Unit :=
  match actor with
  | none => Except.error Err.unauthorized
  | some u => if u.isPm then Except.ok () else Except.error Err.unauthorized

/-- ensureCorrectUserOrPm (middleware/auth.js): actor present and
(isPm, or numeric id equal to parseInt of the userId route param).
Exported but referenced by no route. -/
def ensureCorrectUserOrPm (actor : Option Actor) (paramUserId : String) : Except Err Unit :=
  match actor with
  | none => Except.error Err.unauthorized
  | some u =>
      if u.isPm || (match parseNat paramUserId with
                    | some n => u.id == n
                    | none => false) then
        Except.ok ()
      else Except.error Err.unauthorized

/-- ensureUserOnBoard (middleware/auth.js): reads user.id (TypeError when
anonymous), then Board.isUserOnBoard with the boardId route param;
UnauthorizedError on false, any resolver fault propagated unchanged. -/
def ensureUserOnBoard (st : Store) (actor : Option Actor) (boardId : Nat) : Except Err Unit :=
  match getUser actor with
  | Except.error e => Except.error e
  | Except.ok user =>
      match Board.isUserOnBoard st user.id boardId with
      | Except.error e => Except.error e
      | Except.ok onBoard =>
          if onBoard then Except.ok () else Except.error Err.unauthorized

/-- ensureUserOnBoardOfProject (middleware/auth.js): Project.getById
(NotFound possible), then Board.isUserOnBoard on the project's board;
UnauthorizedError on false.  The actor's isPm flag plays no role. -/
def ensureUserOnBoardOfProject (st : Store) (actor : Option Actor) (projectId : Nat) : Except Err Unit :=
  match Project.getById st projectId with
  | Except.error e => Except.error e
  | Except.ok project =>
      match getUser actor with
      | Except.error e => Except.error e
      | Except.ok user =>
          match Board.isUserOnBoard st user.id project.boardId with
          | Except.error e => Except.error e
          | Except.ok onBoard =>
              if onBoard then Except.ok () else Except.error Err.unauthorized

/-- ensureUserOnSessionBoard (middleware/auth.js): Session.getBoardId,
then Board.isUserOnBoard; UnauthorizedError on false. -/
def ensureUserOnSessionBoard (st : Store) (actor : Option Actor) (sessionId : Nat) : Except Err Unit :=
  match Session.getBoardId st sessionId with
  | Except.error e => Except.error e
  | Except.ok boardId =>
      match getUser actor with
      | Except.error e => Except.error e
      | Except.ok user =>
          match Board.isUserOnBoard st user.id boardId with
          | Except.error e => Except.error e
          | Except.ok onBoard =>
              if onBoard then Except.ok () else Except.error Err.unauthorized

/-- ensureUserOnSessionOrPm (middleware/auth.js): Session.getById returns
the row or `undefined`; the code then reads session.projectId, so a
missing session surfaces as a TypeError, not NotFound.  Then
Project.getById, Board.isUserOnBoard on the project's board, and allow
iff the actor authored the session or is a PM on that board. -/
def ensureUserOnSessionOrPm (st : Store) (actor : Option Actor) (sessionId : Nat) : Except Err Unit :=
  match Session.getById st sessionId with
  | none => Except.error (Err.typeError "Cannot read properties of undefined")
  | some session =>
      match Project.getById st session.projectId with
      | Except.error e => Except.error e
      | Except.ok project =>
          match getUser actor with
          | Except.error e => Except.error e
          | Except.ok user =>
              match Board.isUserOnBoard st user.id project.boardId with
              | Except.error e => Except.error e
              | Except.ok isPmOnBoard =>
                  if session.userId == user.id || (user.isPm && isPmOnBoard) then
                    Except.ok ()
                  else Except.error Err.unauthorized

/-- ensureUserOnProjectOrPm (middleware/auth.js): Project.getById, then
Project.isUserOnProject and Board.isUserOnBoard on the project's board;
allow iff either is true.  Note the source tests
`isUserOnProject || isPmOnBoard` where isPmOnBoard is plain board
membership: the actor's isPm flag is never consulted. -/
def ensureUserOnProjectOrPm (st : Store) (actor : Option Actor) (projectId : Nat) : Except Err Unit :=
  match Project.getById st projectId with
  | Except.error e => Except.error e
  | Except.ok project =>
      match getUser actor with
      | Except.error e => Except.error e
      | Except.ok user =>
          match Project.isUserOnProject st user.id projectId with
          | Except.error e => Except.error e
          | Except.ok isUserOnProj =>
              match Board.isUserOnBoard st user.id project.boardId with
              | Except.error e => Except.error e
              | Except.ok isPmOnBoard =>
                  if isUserOnProj || isPmOnBoard then Except.ok ()
                  else Except.error Err.unauthorized

/-- ensureCorrectUserOrSharedBoardPm (middleware/auth.js):
User.getAllFromSharedBoards of the userId route param (the database
coerces the text param), then the actor is dereferenced; allow iff
`user.id === req.params.userId` (strict equality of the numeric JWT id
against the string param) or (isPm and the actor is among the param
user's shared users). -/
def ensureCorrectUserOrSharedBoardPm (st : Store) (actor : Option Actor) (paramUserId : String) : Except Err Unit :=
  match pgId paramUserId with
  | Except.error e => Except.error e
  | Except.ok paramId =>
      match User.getAllFromSharedBoards st paramId with
      | Except.error e => Except.error e
      | Except.ok sharedUsers =>
          match getUser actor with
          | Except.error e => Except.error e
          | Except.ok user =>
              let isSharedUser := sharedUsers.any (fun su => su.id == user.id)
              if jsStrictEq (JsVal.num user.id) (JsVal.str paramUserId) ||
                  (user.isPm && isSharedUser) then
                Except.ok ()
              else Except.error Err.unauthorized

/-- ensureUserOnSharedBoard (middleware/auth.js):
User.getAllFromSharedBoards of the userId route param; allow iff the
logged-in actor's id appears among them. -/
def ensureUserOnSharedBoard (st : Store) (actor : Option Actor) (paramUserId : String) : Except Err Unit :=
  match pgId paramUserId with
  | Except.error e => Except.error e
  | Except.ok paramId =>
      match User.getAllFromSharedBoards st paramId with
      | Except.error e => Except.error e
      | Except.ok sharedUsers =>
          match getUser actor with
          | Except.error e => Except.error e
          | Except.ok user =>
              if sharedUsers.any (fun su => su.id == user.id) then Except.ok ()
              else Except.error Err.unauthorized

/-- Guard chain of POST / in the boards router (routes/boards.js): the
board-creation operation runs ensurePm and nothing else before its
handler; no membership fact from the store is consulted. -/
def boardsCreateGuard (_st : Store) (actor : Option Actor) : Except Err Unit :=
  ensurePm actor

/-- Guard chain of POST /:projectId/sessions in the projects router
(routes/projects.js): ensureLoggedIn then ensureUserOnProjectOrPm. -/
def projectSessionsCreateGuard (st : Store) (actor : Option Actor) (projectId : Nat) : Except Err Unit :=
  match ensureLoggedIn actor with
  | Except.error e => Except.error e
  | Except.ok _ => ensureUserOnProjectOrPm st actor projectId

/-- Output of the partial-update builder (helpers/sql.js): the joined SET
clause and the parallel bound values. -/
structure SqlUpdate where
  sqlSetCols : String
  values : List String
  deriving Repr, DecidableEq

/-- Column-name resolution `jsToSql[columnName] || columnName` from
helpers/sql.js: JavaScript `||` falls back both when the mapping has no
entry (undefined) and when the mapped name is the empty string (falsy). -/
def resolveCol (jsToSql : List (String × String)) (columnName : String) : String :=
  match jsToSql.lookup columnName with
  | some s => if s = "" then columnName else s
  | none => columnName

/-- Fragment list `keys.map((columnName, idx) => ...)` from
helpers/sql.js: one `"column"=$i` fragment per input attribute, the
placeholder being the attribute's index plus one. -/
def sqlCols (data jsToSql : List (String × String)) : List String :=
  (data.map Prod.fst).mapIdx (fun idx c =>
    "\"" ++ resolveCol jsToSql c ++ "\"=$" ++ toString (idx + 1))

/-- sqlForPartialUpdate (helpers/sql.js): BadRequestError "no data" on an
empty attribute mapping, else the comma-joined fragments and
Object.values of the input in the same iteration order.  The attribute
mapping is the ordered key/value list of the JavaScript object; values
are opaque to the builder and modelled as strings. -/
def sqlForPartialUpdate (data jsToSql : List (String × String)) : Except Err SqlUpdate :=
  if data.length = 0 then Except.error (Err.badRequest "no data")
  else
    Except.ok
      { sqlSetCols := String.intercalate ", " (sqlCols data jsToSql)
        values := data.map Prod.snd }

/-- Concrete fixture: PM user 1 on no board; non-PM user 2 and non-PM
user 3 on board 1; non-PM user 5 on board 2; PM user 4 on board 1 only;
project 10 on board 1 and project 20 on board 2; session 100 on project
10 authored by user 3; no project memberships. -/
def storeA : Store :=
  { users :=
      [ { id := 1, email := "pm@x.com", firstName := "P", lastName := "M", isPm := true }
      , { id := 2, email := "u2@x.com", firstName := "U", lastName := "Two", isPm := false }
      , { id := 3, email := "u3@x.com", firstName := "U", lastName := "Three", isPm := false }
      , { id := 4, email := "pm4@x.com", firstName := "P", lastName := "Four", isPm := true }
      , { id := 5, email := "u5@x.com", firstName := "U", lastName := "Five", isPm := false } ]
    boards := [ { id := 1, title := "board one" }, { id := 2, title := "board two" } ]
    projects :=
      [ { id := 10, name := "proj ten", priority := 1, stage := "pending", boardId := 1 }
      , { id := 20, name := "proj twenty", priority := 2, stage := "pending", boardId := 2 } ]
    sessions :=
      [ { id := 100, projectId := 10, userId := 3, startDatetime := "2024-01-01T00:00:00Z"
        , endDatetime := none, categoryId := 1, comment := "" } ]
    boardsUsers := [(2, 1), (3, 1), (5, 2), (4, 1)]
    projectsUsers := [] }

/-- Actor for fixture user 1 (PM, member of no board). -/
def actorPmNoBoards : Actor := { id := 1, email := "pm@x.com", isPm := true }

/-- Actor for fixture user 2 (not PM, member of board 1 only). -/
def actorMember2 : Actor := { id := 2, email := "u2@x.com", isPm := false }

/-- Actor for fixture user 4 (PM, member of board 1 only). -/
def actorPm4 : Actor := { id := 4, email := "pm4@x.com", isPm := true }

/-- Membership query hit: a boards_users or projects_users pair present in
the table makes the source's EXISTS-style scan true. -/
lemma any_pair_eq_true {l : List (Nat × Nat)} {u b : Nat} (h : (u, b) ∈ l) :
    l.any (fun r => r.1 == u && r.2 == b) = true := by
  simp only [List.any_eq_true, Bool.and_eq_true, beq_iff_eq]
  exact ⟨(u, b), h, rfl, rfl⟩

/-- Membership query miss: when no pair of the table matches, the scan is
false. -/
lemma any_pair_eq_false {l : List (Nat × Nat)} {u b : Nat}
    (h : ∀ r ∈ l, ¬(r.1 = u ∧ r.2 = b)) :
    l.any (fun r => r.1 == u && r.2 == b) = false := by
  simp only [List.any_eq_false, Bool.and_eq_true, beq_iff_eq, not_and]
  intro r hr h1 h2
  exact h r hr ⟨h1, h2⟩


/-- C1: evaluation at the failing input.  Actor 2 is not a PM, is not a
member of project 10, but is a member of board 1 which hosts project 10;
ensureUserOnProjectOrPm ALLOWS, because the source tests plain board
membership and never consults the isPm flag, while the claim (and the
middleware's own doc comment, "on project or PM on board") requires
DENY for a non-PM board member who is not on the project. -/
theorem c1_nonPm_board_member_allowed :
    actorMember2.isPm = false ∧
    Project.isUserOnProject storeA actorMember2.id 10 = Except.ok false ∧
    Board.isUserOnBoard storeA actorMember2.id 1 = Except.ok true ∧
    (Project.getById storeA 10).map (fun p => p.boardId) = Except.ok 1 ∧
    ensureUserOnProjectOrPm storeA (some actorMember2) 10 = Except.ok () := by
  decide

/-- C2: counterexample to the claim as stated.  POST / of the boards
router (board creation) is a guarded operation whose whole guard chain is
ensurePm; an actor whose isPm flag is true is ALLOWED although the store
holds no board membership for them at all, so the global isPm flag alone
does authorize this operation. -/
theorem c2_counterexample_boardCreate_isPm_alone :
    actorPmNoBoards.isPm = true ∧
    storeA.boardsUsers.any (fun r => r.1 == actorPmNoBoards.id) = false ∧
    boardsCreateGuard storeA (some actorPmNoBoards) = Except.ok () := by
  decide

/-- C2 (amended): outside board creation — whose target board does not yet
exist — the isPm flag alone never authorizes: every guard over an existing
target, including both user-directed guards (PATCH /users/:userId and
GET /users/:userId), denies a PM actor who lacks membership on the
target's board (or a shared board with the target user), whatever the
isPm flag says. -/
theorem c2_amended_isPm_board_scoped
    (st : Store) (a : Actor) (hpm : a.isPm = true)
    (b : BoardRow) (hb : st.boards.find? (fun x => x.id == b.id) = some b)
    (hnb : ∀ r ∈ st.boardsUsers, ¬(r.1 = a.id ∧ r.2 = b.id))
    (p : ProjectRow) (hp : st.projects.find? (fun x => x.id == p.id) = some p)
    (hpb : p.boardId = b.id)
    (hnp : ∀ r ∈ st.projectsUsers, ¬(r.1 = a.id ∧ r.2 = p.id))
    (s : SessionRow) (hs : st.sessions.find? (fun x => x.id == s.id) = some s)
    (hsp : s.projectId = p.id) (hso : s.userId ≠ a.id)
    (t : UserRow) (ht : st.users.find? (fun x => x.id == t.id) = some t)
    (hshared : ∀ r1 ∈ st.boardsUsers, r1.1 = a.id →
      ∀ r2 ∈ st.boardsUsers, ¬(r2.2 = r1.2 ∧ r2.1 = t.id))
    (ps : String) (hps : parseNat ps = some t.id) :
    ensureUserOnBoard st (some a) b.id = Except.error Err.unauthorized ∧
    ensureUserOnBoardOfProject st (some a) p.id = Except.error Err.unauthorized ∧
    ensureUserOnProjectOrPm st (some a) p.id = Except.error Err.unauthorized ∧
    ensureUserOnSessionBoard st (some a) s.id = Except.error Err.unauthorized ∧
    ensureUserOnSessionOrPm st (some a) s.id = Except.error Err.unauthorized ∧
    ensureCorrectUserOrSharedBoardPm st (some a) ps = Except.error Err.unauthorized ∧
    ensureUserOnSharedBoard st (some a) ps = Except.error Err.unauthorized := by
  have hanyb : st.boardsUsers.any (fun r => r.1 == a.id && r.2 == b.id) = false :=
    any_pair_eq_false hnb
  have hanyp : st.projectsUsers.any (fun r => r.1 == a.id && r.2 == p.id) = false :=
    any_pair_eq_false hnp
  have hsess : (s.userId == a.id) = false := by
    simp only [beq_eq_false_iff_ne, ne_eq]
    exact hso
  have hshf : (st.users.filter (fun v =>
      st.boardsUsers.any (fun r1 => r1.1 == v.id &&
        st.boardsUsers.any (fun r2 => r2.2 == r1.2 && r2.1 == t.id)))).any
      (fun su => su.id == a.id) = false := by
    simp only [List.any_eq_false, List.mem_filter, Bool.and_eq_true, beq_iff_eq,
      List.any_eq_true, not_and]
    rintro v ⟨hv, r1, hr1, hva, r2, hr2, h2, h3⟩ hne
    exact hshared r1 hr1 (hva.trans hne) r2 hr2 ⟨h2, h3⟩
  refine ⟨?_, ?_, ?_, ?_, ?_, ?_, ?_⟩
  · unfold ensureUserOnBoard getUser Board.isUserOnBoard
    rw [hb]
    simp [hanyb]
  · unfold ensureUserOnBoardOfProject getUser Project.getById Board.isUserOnBoard
    rw [hp]
    simp [hpb, hb, hanyb]
  · unfold ensureUserOnProjectOrPm getUser Project.getById Project.isUserOnProject
      Board.isUserOnBoard
    rw [hp]
    simp [hpb, hb, hanyb, hanyp]
  · unfold ensureUserOnSessionBoard getUser Session.getBoardId Board.isUserOnBoard
    rw [hs]
    simp [hsp, hp, hpb, hb, hanyb]
  · unfold ensureUserOnSessionOrPm getUser Session.getById Project.getById
      Board.isUserOnBoard
    rw [hs]
    simp [hsp, hp, hpb, hb, hanyb, hsess]
  · unfold ensureCorrectUserOrSharedBoardPm getUser pgId User.getAllFromSharedBoards
    rw [hps]
    simp [ht, hshf, jsStrictEq]
  · unfold ensureUserOnSharedBoard getUser pgId User.getAllFromSharedBoards
    rw [hps]
    simp [ht, hshf]

/-- C2 (amended) witness: the fixture PM user 1 belongs to no board and is
denied by every guard over an existing target, although isPm is true. -/
theorem c2_amended_witness :
    ensureUserOnBoard storeA (some actorPmNoBoards) 1 = Except.error Err.unauthorized ∧
    ensureUserOnBoardOfProject storeA (some actorPmNoBoards) 10 = Except.error Err.unauthorized ∧
    ensureUserOnProjectOrPm storeA (some actorPmNoBoards) 10 = Except.error Err.unauthorized ∧
    ensureUserOnSessionBoard storeA (some actorPmNoBoards) 100 = Except.error Err.unauthorized ∧
    ensureUserOnSessionOrPm storeA (some actorPmNoBoards) 100 = Except.error Err.unauthorized ∧
    ensureCorrectUserOrSharedBoardPm storeA (some actorPmNoBoards) "5" = Except.error Err.unauthorized ∧
    ensureUserOnSharedBoard storeA (some actorPmNoBoards) "5" = Except.error Err.unauthorized :=
  c2_amended_isPm_board_scoped storeA actorPmNoBoards (by decide)
    { id := 1, title := "board one" } (by decide) (by decide)
    { id := 10, name := "proj ten", priority := 1, stage := "pending", boardId := 1 }
    (by decide) (by decide) (by decide)
    { id := 100, projectId := 10, userId := 3, startDatetime := "2024-01-01T00:00:00Z"
    , endDatetime := none, categoryId := 1, comment := "" }
    (by decide) (by decide) (by decide)
    { id := 5, email := "u5@x.com", firstName := "U", lastName := "Five", isPm := false }
    (by decide) (by decide)
    "5" (by decide)

/-- C3: evaluation at the failing input.  Actor 2 (not a PM) requests
their own userId: the route parameter is the string "2" while the JWT id
is the number 2, and the source compares them with strict equality, which
is false across types; the actor even appears in their own shared-users
list, yet the guard DENIES because the isPm flag is false — the claim
requires ALLOW for every present actor whose id equals paramUserId. -/
theorem c3_self_access_denied :
    actorMember2.id = 2 ∧ actorMember2.isPm = false ∧
    (User.getAllFromSharedBoards storeA 2).map
      (fun l => l.any (fun su => su.id == actorMember2.id)) = Except.ok true ∧
    jsStrictEq (JsVal.num actorMember2.id) (JsVal.str "2") = false ∧
    ensureCorrectUserOrSharedBoardPm storeA (some actorMember2) "2" =
      Except.error Err.unauthorized := by
  decide

/-- C4: evaluation at the failing input.  Session 999 is absent from the
store; Session.getById returns `undefined` with no NotFound check (unlike
every sibling lookup), and ensureUserOnSessionOrPm then reads
session.projectId, so the evaluation fails with a TypeError — an internal
fault, not the NotFound the claim requires. -/
theorem c4_missing_session_typeError :
    Session.getById storeA 999 = none ∧
    ensureUserOnSessionOrPm storeA (some actorMember2) 999 =
      Except.error (Err.typeError "Cannot read properties of undefined") := by
  decide

/-- C5: counterexample to the claim as stated.  Fixture user 1 exists but
belongs to no board; the shared-users self-join then yields the empty
list, which does not contain user 1 — the claim asserts the result always
contains u, including when u belongs to no board. -/
theorem c5_counterexample_no_board_user :
    (storeA.users.find? (fun u => u.id == 1)).isSome = true ∧
    storeA.boardsUsers.any (fun r => r.1 == 1) = false ∧
    User.getAllFromSharedBoards storeA 1 = Except.ok [] := by
  decide

/-- C5 (amended): for every user u in the store,
User.getAllFromSharedBoards returns exactly the users v sharing some
board with u (distinct when the users table is duplicate-free), and that
result contains u itself if and only if u belongs to at least one
board. -/
theorem c5_amended_sharedUsers_characterization
    (st : Store) (uid : Nat)
    (h : (st.users.find? (fun u => u.id == uid)).isSome = true)
    (hnd : st.users.Nodup) :
    ∃ l, User.getAllFromSharedBoards st uid = Except.ok l ∧
      l.Nodup ∧
      (∀ v, v ∈ l ↔ v ∈ st.users ∧ ∃ r1 ∈ st.boardsUsers, r1.1 = v.id ∧
        ∃ r2 ∈ st.boardsUsers, r2.2 = r1.2 ∧ r2.1 = uid) ∧
      ((∃ v ∈ l, v.id = uid) ↔ ∃ r ∈ st.boardsUsers, r.1 = uid) := by
  obtain ⟨w, hw⟩ := Option.isSome_iff_exists.mp h
  have hwid : w.id = uid := by
    have := List.find?_some hw
    simpa [beq_iff_eq] using this
  have hwmem : w ∈ st.users := List.mem_of_find?_eq_some hw
  refine ⟨st.users.filter (fun v =>
      st.boardsUsers.any (fun r1 => r1.1 == v.id &&
        st.boardsUsers.any (fun r2 => r2.2 == r1.2 && r2.1 == uid))), ?_, ?_, ?_, ?_⟩
  · unfold User.getAllFromSharedBoards
    rw [hw]
  · exact List.Nodup.filter _ hnd
  · intro v
    simp only [List.mem_filter, Bool.and_eq_true, beq_iff_eq, List.any_eq_true]
  · constructor
    · rintro ⟨v, hv, hvid⟩
      rw [List.mem_filter] at hv
      obtain ⟨-, hq⟩ := hv
      simp only [Bool.and_eq_true, beq_iff_eq, List.any_eq_true] at hq
      obtain ⟨r1, hr1, hid1, r2, hr2, hb2, hu2⟩ := hq
      exact ⟨r2, hr2, hu2⟩
    · rintro ⟨r, hr, hru⟩
      refine ⟨w, ?_, hwid⟩
      rw [List.mem_filter]
      refine ⟨hwmem, ?_⟩
      simp only [Bool.and_eq_true, beq_iff_eq, List.any_eq_true]
      exact ⟨r, hr, by rw [hwid, hru], r, hr, rfl, hru⟩

/-- C5 (amended) witness: fixture user 2 is on board 1, and the theorem
applies, giving the characterization of their shared users. -/
theorem c5_amended_witness :
    (storeA.users.find? (fun u => u.id == 2)).isSome = true ∧
    (∃ l, User.getAllFromSharedBoards storeA 2 = Except.ok l ∧
      l.Nodup ∧
      (∀ v, v ∈ l ↔ v ∈ storeA.users ∧ ∃ r1 ∈ storeA.boardsUsers, r1.1 = v.id ∧
        ∃ r2 ∈ storeA.boardsUsers, r2.2 = r1.2 ∧ r2.1 = 2) ∧
      ((∃ v ∈ l, v.id = 2) ↔ ∃ r ∈ storeA.boardsUsers, r.1 = 2)) :=
  ⟨by decide, c5_amended_sharedUsers_characterization storeA 2 (by decide) (by decide)⟩

/-- C6: counterexample to the claim as stated.  Project 999 does not
exist in the fixture store, yet Project.isUserOnProject returns a plain
false instead of failing NotFound: the source queries projects_users with
no existence check on the referenced project or user. -/
theorem c6_counterexample_isUserOnProject_no_check :
    (storeA.projects.find? (fun p => p.id == 999)) = none ∧
    Project.isUserOnProject storeA 1 999 = Except.ok false := by
  decide

/-- C6 (amended): Board.isUserOnBoard, Project.getById (boardIdOfProject)
and Session.getBoardId (boardIdOfSession) each confirm their referenced
entity first and fail NotFound when it is absent; Project.isUserOnProject
alone performs no existence check and returns a boolean for any input. -/
theorem c6_amended_resolver_notFound
    (st : Store) (uid bid pid sid : Nat)
    (hb : st.boards.find? (fun b => b.id == bid) = none)
    (hp : st.projects.find? (fun p => p.id == pid) = none)
    (hs : st.sessions.find? (fun s => s.id == sid) = none) :
    Board.isUserOnBoard st uid bid = Except.error (Err.notFound "no board found") ∧
    Project.getById st pid = Except.error (Err.notFound "no project found") ∧
    Session.getBoardId st sid = Except.error (Err.notFound "no session found") ∧
    (∃ answer, Project.isUserOnProject st uid pid = Except.ok answer) := by
  refine ⟨?_, ?_, ?_, ⟨_, rfl⟩⟩
  · unfold Board.isUserOnBoard
    rw [hb]
  · unfold Project.getById
    rw [hp]
  · unfold Session.getBoardId
    rw [hs]

/-- C6 (amended) witness: ids 999 are absent from the fixture store and
each checked resolver fails NotFound there while isUserOnProject still
answers. -/
theorem c6_amended_witness :
    (storeA.boards.find? (fun b => b.id == 999) = none) ∧
    (Board.isUserOnBoard storeA 1 999 = Except.error (Err.notFound "no board found") ∧
      Project.getById storeA 999 = Except.error (Err.notFound "no project found") ∧
      Session.getBoardId storeA 999 = Except.error (Err.notFound "no session found") ∧
      (∃ answer, Project.isUserOnProject storeA 1 999 = Except.ok answer)) :=
  ⟨by decide, c6_amended_resolver_notFound storeA 1 999 999 999 (by decide) (by decide) (by decide)⟩

/-- C7: ensureUserOnBoardOfProject is board-scoped with no global-PM
bypass: a PM actor who is a member of board B1 but not of board B2 is
allowed for any project hosted on B1 and denied for any project hosted
on B2. -/
theorem c7_onBoardOfProject_board_scoped
    (st : Store) (a : Actor) (hpm : a.isPm = true)
    (p1 p2 : ProjectRow)
    (hp1 : st.projects.find? (fun x => x.id == p1.id) = some p1)
    (hp2 : st.projects.find? (fun x => x.id == p2.id) = some p2)
    (b1 b2 : BoardRow)
    (hb1 : st.boards.find? (fun x => x.id == b1.id) = some b1)
    (hb2 : st.boards.find? (fun x => x.id == b2.id) = some b2)
    (hpb1 : p1.boardId = b1.id) (hpb2 : p2.boardId = b2.id)
    (hmem1 : (a.id, b1.id) ∈ st.boardsUsers)
    (hmem2 : ∀ r ∈ st.boardsUsers, ¬(r.1 = a.id ∧ r.2 = b2.id)) :
    ensureUserOnBoardOfProject st (some a) p1.id = Except.ok () ∧
    ensureUserOnBoardOfProject st (some a) p2.id = Except.error Err.unauthorized := by
  have h1 : st.boardsUsers.any (fun r => r.1 == a.id && r.2 == b1.id) = true :=
    any_pair_eq_true hmem1
  have h2 : st.boardsUsers.any (fun r => r.1 == a.id && r.2 == b2.id) = false :=
    any_pair_eq_false hmem2
  constructor
  · unfold ensureUserOnBoardOfProject getUser Project.getById Board.isUserOnBoard
    rw [hp1]
    simp [hpb1, hb1, h1]
  · unfold ensureUserOnBoardOfProject getUser Project.getById Board.isUserOnBoard
    rw [hp2]
    simp [hpb2, hb2, h2]

/-- C7 witness: fixture PM user 4 is on board 1 only; project 10 is on
board 1 and project 20 on board 2. -/
theorem c7_witness :
    ensureUserOnBoardOfProject storeA (some actorPm4) 10 = Except.ok () ∧
    ensureUserOnBoardOfProject storeA (some actorPm4) 20 = Except.error Err.unauthorized :=
  c7_onBoardOfProject_board_scoped storeA actorPm4 (by decide)
    { id := 10, name := "proj ten", priority := 1, stage := "pending", boardId := 1 }
    { id := 20, name := "proj twenty", priority := 2, stage := "pending", boardId := 2 }
    (by decide) (by decide)
    { id := 1, title := "board one" } { id := 2, title := "board two" }
    (by decide) (by decide) (by decide) (by decide) (by decide) (by decide)

/-- C8: counterexample to the claim as stated.  With input attribute
isCool and a column-name mapping that maps isCool to the empty string,
the mapping has an entry for the attribute, yet the fragment uses the
attribute name: JavaScript `jsToSql[columnName] || columnName` falls back
on the empty string because it is falsy, so "the mapped storage name
whenever the attribute has an entry" does not hold of every mapping. -/
theorem c8_counterexample_empty_mapped_name :
    (List.lookup "isCool" [("isCool", "")]).isSome = true ∧
    sqlCols [("isCool", "x")] [("isCool", "")] = ["\"isCool\"=$1"] ∧
    "\"isCool\"=$1" ≠ "\"\"=$1" := by
  decide

/-- C8 (amended): for every non-empty attribute mapping, the builder
returns one fragment per attribute in iteration order, the column being
the mapped storage name when the mapping has a non-empty entry for the
attribute and the attribute name otherwise (an empty-string entry falls
back like a missing one), placeholders running contiguously from $1 with
no gaps or reuse, and a parallel values list of equal length in the same
order. -/
theorem c8_amended_builder_shape
    (data jsToSql : List (String × String)) (h : data ≠ []) :
    ∃ out, sqlForPartialUpdate data jsToSql = Except.ok out ∧
      (sqlCols data jsToSql).length = data.length ∧
      out.values.length = data.length ∧
      out.sqlSetCols = String.intercalate ", " (sqlCols data jsToSql) ∧
      ∀ i (hi : i < data.length) (hc : i < (sqlCols data jsToSql).length)
        (hv : i < out.values.length),
        (sqlCols data jsToSql).get ⟨i, hc⟩ =
          "\"" ++ resolveCol jsToSql (data.get ⟨i, hi⟩).1 ++ "\"=$" ++ toString (i + 1) ∧
        out.values.get ⟨i, hv⟩ = (data.get ⟨i, hi⟩).2 := by
  have h0 : ¬(data.length = 0) := by
    simpa [List.length_eq_zero] using h
  refine ⟨{ sqlSetCols := String.intercalate ", " (sqlCols data jsToSql)
          , values := data.map Prod.snd }, ?_, ?_, ?_, rfl, ?_⟩
  · unfold sqlForPartialUpdate
    rw [if_neg h0]
  · unfold sqlCols
    rw [List.length_mapIdx, List.length_map]
  · exact List.length_map data Prod.snd
  · intro i hi hc hv
    constructor
    · have hm : i < (data.map Prod.fst).length := by
        rwa [List.length_map]
      have := List.get_mapIdx (data.map Prod.fst)
        (fun idx c => "\"" ++ resolveCol jsToSql c ++ "\"=$" ++ toString (idx + 1)) i hm
      unfold sqlCols
      rw [this]
      congr 2
      rw [List.get_map]
    · rw [List.get_map]

/-- C8 (amended) witness: the spec's own example input, two attributes
with one mapped column name. -/
theorem c8_amended_witness :
    ([("shape", "square"), ("isCool", "false")] : List (String × String)) ≠ [] ∧
    (∃ out, sqlForPartialUpdate [("shape", "square"), ("isCool", "false")]
        [("isCool", "is_cool")] = Except.ok out ∧
      (sqlCols [("shape", "square"), ("isCool", "false")] [("isCool", "is_cool")]).length =
        ([("shape", "square"), ("isCool", "false")] : List (String × String)).length ∧
      out.values.length = ([("shape", "square"), ("isCool", "false")] : List (String × String)).length ∧
      out.sqlSetCols = String.intercalate ", "
        (sqlCols [("shape", "square"), ("isCool", "false")] [("isCool", "is_cool")]) ∧
      ∀ i (hi : i < ([("shape", "square"), ("isCool", "false")] : List (String × String)).length)
        (hc : i < (sqlCols [("shape", "square"), ("isCool", "false")] [("isCool", "is_cool")]).length)
        (hv : i < out.values.length),
        (sqlCols [("shape", "square"), ("isCool", "false")] [("isCool", "is_cool")]).get ⟨i, hc⟩ =
          "\"" ++ resolveCol [("isCool", "is_cool")]
            (([("shape", "square"), ("isCool", "false")] : List (String × String)).get ⟨i, hi⟩).1 ++
            "\"=$" ++ toString (i + 1) ∧
        out.values.get ⟨i, hv⟩ =
          (([("shape", "square"), ("isCool", "false")] : List (String × String)).get ⟨i, hi⟩).2) :=
  ⟨by decide, c8_amended_builder_shape [("shape", "square"), ("isCool", "false")]
    [("isCool", "is_cool")] (by decide)⟩

/-- C9: sqlForPartialUpdate fails exactly on the empty attribute mapping,
and the failure is the BadRequest-class fault; every non-empty input
returns normally (Except results are either ok or error, so the two
equivalences cover every run). -/
theorem c9_badRequest_iff_empty (data jsToSql : List (String × String)) :
    (sqlForPartialUpdate data jsToSql = Except.error (Err.badRequest "no data") ↔ data = []) ∧
    ((∃ out, sqlForPartialUpdate data jsToSql = Except.ok out) ↔ data ≠ []) := by
  unfold sqlForPartialUpdate
  by_cases hd : data.length = 0
  · have hnil : data = [] := List.length_eq_zero.mp hd
    subst hnil
    simp
  · have hne : data ≠ [] := by
      simpa [List.length_eq_zero] using hd
    rw [if_neg hd]
    simp [hne]

/-- C10: Board.removeUserFromBoard fails NotFound exactly when no
boards_users row (u, b) exists — no user or board existence check softens
this — and when the row exists it removes precisely the pairs equal to
(u, b), leaving boards untouched, so a subsequent isUserOnBoard(u, b)
returns false. -/
theorem c10_removeUserFromBoard_exact
    (st : Store) (u b : Nat)
    (hboard : (st.boards.find? (fun x => x.id == b)).isSome = true) :
    (Board.removeUserFromBoard st u b = Except.error (Err.notFound "no board-user found") ↔
      (u, b) ∉ st.boardsUsers) ∧
    ((u, b) ∈ st.boardsUsers →
      ∃ st', Board.removeUserFromBoard st u b = Except.ok st' ∧
        (∀ r, r ∈ st'.boardsUsers ↔ r ∈ st.boardsUsers ∧ r ≠ (u, b)) ∧
        st'.boards = st.boards ∧
        Board.isUserOnBoard st' u b = Except.ok false) := by
  have hiff : (st.boardsUsers.any (fun r => r.1 == u && r.2 == b) = true) ↔
      (u, b) ∈ st.boardsUsers := by
    simp only [List.any_eq_true, Bool.and_eq_true, beq_iff_eq]
    constructor
    · rintro ⟨⟨r1, r2⟩, hr, h1, h2⟩
      rw [← h1, ← h2]
      exact hr
    · intro hm
      exact ⟨(u, b), hm, rfl, rfl⟩
  constructor
  · by_cases hm : (u, b) ∈ st.boardsUsers
    · have hany := hiff.mpr hm
      unfold Board.removeUserFromBoard
      rw [hany]
      simp [hm]
    · have hany : st.boardsUsers.any (fun r => r.1 == u && r.2 == b) = false := by
        rw [← Bool.not_eq_true]
        exact fun hc => hm (hiff.mp hc)
      unfold Board.removeUserFromBoard
      rw [hany]
      simp [hm]
  · intro hm
    have hany := hiff.mpr hm
    refine ⟨{ st with boardsUsers :=
        st.boardsUsers.filter (fun r => !(r.1 == u && r.2 == b)) }, ?_, ?_, rfl, ?_⟩
    · unfold Board.removeUserFromBoard
      rw [hany]
      rfl
    · intro r
      simp only [List.mem_filter, Bool.not_eq_true', Bool.and_eq_true, beq_iff_eq, ne_eq,
        Prod.ext_iff, Bool.and_eq_false_iff, beq_eq_false_iff_ne]
      constructor
      · rintro ⟨hr, hne⟩
        refine ⟨hr, ?_⟩
        rintro ⟨h1, h2⟩
        rcases hne with h | h
        · exact h h1
        · exact h h2
      · rintro ⟨hr, hne⟩
        refine ⟨hr, ?_⟩
        by_cases h1 : r.1 = u
        · right
          intro h2
          exact hne ⟨h1, h2⟩
        · left
          exact h1
    · obtain ⟨brow, hbrow⟩ := Option.isSome_iff_exists.mp hboard
      unfold Board.isUserOnBoard
      rw [hbrow]
      have : (st.boardsUsers.filter (fun r => !(r.1 == u && r.2 == b))).any
          (fun r => r.1 == u && r.2 == b) = false := by
        simp only [List.any_eq_false, List.mem_filter, Bool.not_eq_true']
        rintro r ⟨-, hf⟩
        simp [hf]
      rw [this]

/-- C10 witness: removing fixture user 2 from board 1 succeeds, removes
exactly that membership pair, and afterwards isUserOnBoard answers
false. -/
theorem c10_witness :
    ((storeA.boards.find? (fun x => x.id == 1)).isSome = true) ∧
    ((Board.removeUserFromBoard storeA 2 1 = Except.error (Err.notFound "no board-user found") ↔
      (2, 1) ∉ storeA.boardsUsers) ∧
    ((2, 1) ∈ storeA.boardsUsers →
      ∃ st', Board.removeUserFromBoard storeA 2 1 = Except.ok st' ∧
        (∀ r, r ∈ st'.boardsUsers ↔ r ∈ storeA.boardsUsers ∧ r ≠ (2, 1)) ∧
        st'.boards = storeA.boards ∧
        Board.isUserOnBoard st' 2 1 = Except.ok false)) :=
  ⟨by decide, c10_removeUserFromBoard_exact storeA 2 1 (by decide)⟩

end Proma
